import Mathlib

/-!
Verification of the `replicate resync`/`reset` subcommand
(`src/cmd/replicate-reset.go`), a thin CLI wrapper that validates its
arguments, parses an optional `--older-than` duration into a day count,
performs one remote `ResetReplication` call and formats the result.

The Go file is embedded shallowly:
* command-line state (`cli.Context`) becomes the `Invocation` structure;
* the control flow of `mainReplicateReset` up to the remote call becomes a
  pure function returning a `RunOutcome`, so "exits with a usage error",
  "terminates fatally" and "calls the remote operation with these
  arguments" are constructors that can be compared;
* `fatalIf`/`fatal`/`probe` live in this repository outside the provided
  sources; per the specification every validation failure "immediately
  terminates the command", so reaching one of those call sites is modelled
  as the `fatalExit` outcome (see the doc comments below);
* the external duration library (`maze.io/x/duration`) is a parameter of
  the embedding; a concrete model of it, written from the specification,
  is used to evaluate the theorems on the example inputs.
-/

namespace McReplicateReset

/-- One replication target of the remote reply
(`replication.ResyncTarget` from the client SDK); the command reads only
the reset identifier field (plus the ARN, kept for the JSON rendering). -/
structure ResyncTarget where
  Arn : String
  ResetID : String
deriving Repr, DecidableEq

/-- The reply of the remote `ResetReplication` call
(`replication.ResyncTargetsInfo` from the client SDK): a list of targets. -/
structure ResyncTargetsInfo where
  Targets : List ResyncTarget
deriving Repr, DecidableEq

/-- The message value built by the command (`replicateResetMessage`),
with the field names of the Go structure. -/
structure replicateResetMessage where
  Op : String
  URL : String
  Resync : ResyncTargetsInfo
  Status : String
  TargetArn : String
deriving Repr, DecidableEq

/-- Go `strings.ContainsAny(s, chars)`: does `s` contain any character of
`chars`? -/
def stringsContainsAny (s chars : String) : Bool :=
  s.toList.any fun c => chars.toList.contains c

/-- Nanoseconds in one day (`duration.Day`, i.e. `24 * time.Hour`). -/
def nsPerDay : Int := 86400000000000

/-- `time.Duration(days.Days())`: the parsed duration (an integer count of
nanoseconds) divided by one day.  `Days()` returns a `float64` and the Go
conversion back to an integral duration truncates toward zero; for the
magnitudes at hand the `float64` division is exact enough that this equals
the rational quotient truncated toward zero, which `Int.tdiv` computes. -/
def durationToDays (d : Int) : Int := Int.tdiv d nsPerDay

/-- The command-line state the command reads from `cli.Context`:
the positional arguments, `cliCtx.String("remote-bucket")` (`""` when the
flag is absent), `cliCtx.IsSet("older-than")` and
`cliCtx.String("older-than")`. -/
structure Invocation where
  args : List String
  remoteBucket : String
  olderThanSet : Bool
  olderThanStr : String
deriving Repr, DecidableEq

/-- Everything `mainReplicateReset` can do up to (and including) reaching
the remote `ResetReplication` call:
* `usageExit code`: `cli.ShowCommandHelpAndExit` — print help, exit with
  `code`;
* `fatalExit msg`: a `fatal`/`fatalIf` site fired — print `msg`, exit
  non-zero.  `fatal` and `fatalIf` are code of this repository outside the
  provided sources; modelled from the spec: every such failure
  "immediately terminates the command with a descriptive message";
* `remoteCall olderThan remoteBucket`:
  `client.ResetReplication(ctx, olderThan, cliCtx.String("remote-bucket"))`
  is reached with these two arguments. -/
inductive RunOutcome where
  | usageExit (code : Nat)
  | fatalExit (msg : String)
  | remoteCall (olderThan : Int) (remoteBucket : String)
deriving Repr, DecidableEq

/-- `checkReplicateResetSyntax` from the source: one positional argument
is required (otherwise help is shown and the process exits with code 1),
and the `--remote-bucket` value must be non-empty (otherwise a fatal
error).  Returns the terminating outcome, or `none` when the checks pass. -/
def replicateResetSyntaxCheck (inv : Invocation) : Option RunOutcome :=
  if inv.args.length ≠ 1 then
    some (.usageExit 1)
  else if inv.remoteBucket = "" then
    some (.fatalExit "--remote-bucket flag needs to be specified.")
  else
    none

/-- `mainReplicateReset` up to the remote call.  Parameters:
* `parseDuration` embeds `duration.ParseDuration` of the external
  `maze.io/x/duration` library: `none` is a parse error, `some d` the
  parsed duration in nanoseconds;
* `clientOk` embeds whether `newClient(aliasedURL)` succeeds (on failure
  the command dies with "Unable to initialize connection.").

The body follows the source line by line: syntax check; client creation;
then, only when `--older-than` was set to a non-empty string, the value is
parsed, a parse failure or a string without any of the characters
`'d'`/`'w'`/`'y'` is fatal, a parsed zero duration is fatal, and otherwise
the duration truncated to days becomes `olderThan`; finally the remote
call is reached with `olderThan` (zero when the flag was absent or empty)
and the `--remote-bucket` value. -/
def mainReplicateReset (parseDuration : String → Option Int)
    (clientOk : String → Bool) (inv : Invocation) : RunOutcome :=
  match replicateResetSyntaxCheck inv with
  | some out => out
  | none =>
    if clientOk (inv.args.headD "") = false then
      .fatalExit "Unable to initialize connection."
    else if inv.olderThanSet = true ∧ inv.olderThanStr ≠ "" then
      match parseDuration inv.olderThanStr with
      | none =>
        .fatalExit ("Unable to parse older-than=`" ++ inv.olderThanStr ++ "`.")
      | some days =>
        if stringsContainsAny inv.olderThanStr "dwy" = false then
          .fatalExit ("Unable to parse older-than=`" ++ inv.olderThanStr ++ "`.")
        else if days = 0 then
          .fatalExit "older-than cannot be set to zero"
        else
          .remoteCall (durationToDays days) inv.remoteBucket
    else
      .remoteCall 0 inv.remoteBucket

/-- The message printed after a successful remote call (the
`printMsg(replicateResetMessage{...})` literal in `mainReplicateReset`):
`Op` is `"status"`, `URL` the aliased URL, and the resync info is the
remote reply unmodified; the remaining fields keep the Go zero value. -/
def resultMessage (aliasedURL : String) (rinfo : ResyncTargetsInfo) :
    replicateResetMessage :=
  { Op := "status", URL := aliasedURL, Resync := rinfo,
    Status := "", TargetArn := "" }

/-- `replicateResetMessage.String` from the source.  `console.Colorize`
only wraps the text in terminal color codes and is modelled as the
identity.  Go would panic on an out-of-range index, so the indexing
`Targets[0]` is embedded as `List.get?` and the result is an
`Option String`, `none` standing for a panic. -/
def replicateResetMessage.string (r : replicateResetMessage) :
    Option String :=
  if r.Resync.Targets.length = 1 then
    (r.Resync.Targets.get? 0).map fun t =>
      "Replication reset started for " ++ r.URL ++ " with ID " ++ t.ResetID
  else
    some ("Replication reset started for " ++ r.URL)

/-- JSON documents, as produced by the JSON encoder. -/
inductive Json where
  | str (s : String)
  | arr (elems : List Json)
  | obj (fields : List (String × Json))

/-- Look a key up in a JSON object (first binding wins, as in a Go struct
encoding, whose keys are distinct). -/
def Json.getField : Json → String → Option Json
  | .obj fields, k => fields.lookup k
  | .str _, _ => none
  | .arr _, _ => none

/-- JSON encoding of one resync target, with its Go struct tags. -/
def ResyncTarget.toJson (t : ResyncTarget) : Json :=
  .obj [("arn", .str t.Arn), ("resetId", .str t.ResetID)]

/-- JSON encoding of the resync reply, with its Go struct tag. -/
def ResyncTargetsInfo.toJson (i : ResyncTargetsInfo) : Json :=
  .obj [("target", .arr (i.Targets.map ResyncTarget.toJson))]

/-- `replicateResetMessage.JSON` from the source: set `Status` to
`"success"` on the (value-receiver) copy and marshal it with the struct
tags `op`, `url`, `resyncInfo`, `status`, `targetArn`.  Marshalling this
structure cannot fail, so the fatal branch of the source is unreachable
and the result is the document itself. -/
def replicateResetMessage.JSON (r : replicateResetMessage) : Json :=
  .obj [("op", .str r.Op), ("url", .str r.URL),
        ("resyncInfo", r.Resync.toJson),
        ("status", .str "success"),
        ("targetArn", .str r.TargetArn)]

/-- Read a non-empty string of decimal digits as a number (helper for
`parseDurationModel`; structural recursion so that proofs can evaluate
it). -/
def decimalDigits : List Char → Nat → Option Nat
  | [], acc => some acc
  | c :: cs, acc =>
    if c.isDigit then decimalDigits cs (acc * 10 + (c.toNat - 48)) else none

/-- Modelled from the spec: `duration.ParseDuration` of the external
`maze.io/x/duration` library (not part of this repository), "a
duration-string parser supporting day/week/year suffixes", with the usual
clock units also accepted (the spec discusses `"60h"`-like inputs as
parseable but lacking a day/week/year marker).  Only the simple
`<decimal digits><unit>` shapes needed by the examples are modelled:
one trailing unit character among `s`, `m`, `h`, `d`, `w`, `y`, the value
returned in nanoseconds. -/
def parseDurationModel (s : String) : Option Int :=
  match s.toList.reverse with
  | [] => none
  | u :: rest =>
    match rest, decimalDigits rest.reverse 0 with
    | [], _ => none
    | _ :: _, none => none
    | _ :: _, some n =>
      if u = 's' then some (n * 1000000000)
      else if u = 'm' then some (n * 60000000000)
      else if u = 'h' then some (n * 3600000000000)
      else if u = 'd' then some (n * nsPerDay)
      else if u = 'w' then some (n * 7 * nsPerDay)
      else if u = 'y' then some (n * 365 * nsPerDay)
      else none

/-- Claim C1: if `--older-than` is explicitly supplied with a non-empty
string that parses successfully to a zero-length duration (e.g. `"0d"`),
the command terminates fatally and the remote `ResetReplication`
operation is never reached. -/
theorem olderThanZero_fatal (parse : String → Option Int)
    (clientOk : String → Bool) (inv : Invocation)
    (h1 : inv.args.length = 1) (h2 : inv.remoteBucket ≠ "")
    (h3 : clientOk (inv.args.headD "") = true)
    (h4 : inv.olderThanSet = true) (h5 : inv.olderThanStr ≠ "")
    (h6 : parse inv.olderThanStr = some 0) :
    (mainReplicateReset parse clientOk inv
        = .fatalExit ("Unable to parse older-than=`" ++ inv.olderThanStr ++ "`.")
      ∨ mainReplicateReset parse clientOk inv
        = .fatalExit "older-than cannot be set to zero") ∧
      ∀ d rb, mainReplicateReset parse clientOk inv ≠ .remoteCall d rb := by
  rw [show clientOk (inv.args.headD "") = clientOk (inv.args.head?.getD "") from
    congrArg clientOk (List.headD_eq_head? inv.args "")] at h3
  by_cases hc : stringsContainsAny inv.olderThanStr "dwy" = false <;>
    simp [mainReplicateReset, replicateResetSyntaxCheck,
      h1, h2, h3, h4, h5, h6, hc]

/-- Witness for C1 at the spec example `--older-than "0d"`. -/
theorem olderThanZero_fatal_witness :
    (mainReplicateReset parseDurationModel (fun _ => true)
        ⟨["myminio/mybucket"], "arn:minio:replication::xxx:mybucket",
          true, "0d"⟩ = .fatalExit "Unable to parse older-than=`0d`."
      ∨ mainReplicateReset parseDurationModel (fun _ => true)
        ⟨["myminio/mybucket"], "arn:minio:replication::xxx:mybucket",
          true, "0d"⟩ = .fatalExit "older-than cannot be set to zero") ∧
      ∀ d rb, mainReplicateReset parseDurationModel (fun _ => true)
        ⟨["myminio/mybucket"], "arn:minio:replication::xxx:mybucket",
          true, "0d"⟩ ≠ .remoteCall d rb :=
  olderThanZero_fatal parseDurationModel (fun _ => true)
    ⟨["myminio/mybucket"], "arn:minio:replication::xxx:mybucket",
      true, "0d"⟩
    rfl (by decide) rfl rfl (by decide) (by decide)

/-- Claim C2: if `--older-than` is supplied with a non-empty string that
fails to parse, or that parses but contains none of the unit markers
`'d'`, `'w'`, `'y'` (e.g. `"60h"`), the command terminates fatally with
the parse input error and the remote `ResetReplication` operation is
never reached. -/
theorem olderThanUnparseable_fatal (parse : String → Option Int)
    (clientOk : String → Bool) (inv : Invocation)
    (h1 : inv.args.length = 1) (h2 : inv.remoteBucket ≠ "")
    (h3 : clientOk (inv.args.headD "") = true)
    (h4 : inv.olderThanSet = true) (h5 : inv.olderThanStr ≠ "")
    (h6 : parse inv.olderThanStr = none
      ∨ stringsContainsAny inv.olderThanStr "dwy" = false) :
    mainReplicateReset parse clientOk inv
        = .fatalExit ("Unable to parse older-than=`" ++ inv.olderThanStr ++ "`.")
      ∧ ∀ d rb, mainReplicateReset parse clientOk inv ≠ .remoteCall d rb := by
  rw [show clientOk (inv.args.headD "") = clientOk (inv.args.head?.getD "") from
    congrArg clientOk (List.headD_eq_head? inv.args "")] at h3
  rcases h6 with h6 | h6
  · simp [mainReplicateReset, replicateResetSyntaxCheck,
      h1, h2, h3, h4, h5, h6]
  · cases hp : parse inv.olderThanStr <;>
      simp [mainReplicateReset, replicateResetSyntaxCheck,
        h1, h2, h3, h4, h5, h6, hp]

/-- Witness for C2 at `--older-than "60h"`: the string parses (60 hours)
but carries no day/week/year marker. -/
theorem olderThanUnparseable_fatal_witness :
    mainReplicateReset parseDurationModel (fun _ => true)
        ⟨["myminio/mybucket"], "arn:minio:replication::xxx:mybucket",
          true, "60h"⟩ = .fatalExit "Unable to parse older-than=`60h`."
      ∧ ∀ d rb, mainReplicateReset parseDurationModel (fun _ => true)
        ⟨["myminio/mybucket"], "arn:minio:replication::xxx:mybucket",
          true, "60h"⟩ ≠ .remoteCall d rb :=
  olderThanUnparseable_fatal parseDurationModel (fun _ => true)
    ⟨["myminio/mybucket"], "arn:minio:replication::xxx:mybucket",
      true, "60h"⟩
    rfl (by decide) rfl rfl (by decide) (Or.inr (by decide))

/-- Claim C3: a successfully parsed `--older-than` value with a unit
marker and a non-zero duration reaches the remote `ResetReplication` call
with the parsed duration truncated to a whole number of days. -/
theorem olderThanParsed_truncatedDays (parse : String → Option Int)
    (clientOk : String → Bool) (inv : Invocation) (v : Int)
    (h1 : inv.args.length = 1) (h2 : inv.remoteBucket ≠ "")
    (h3 : clientOk (inv.args.headD "") = true)
    (h4 : inv.olderThanSet = true) (h5 : inv.olderThanStr ≠ "")
    (h6 : parse inv.olderThanStr = some v)
    (h7 : stringsContainsAny inv.olderThanStr "dwy" = true)
    (h8 : v ≠ 0) :
    mainReplicateReset parse clientOk inv
      = .remoteCall (durationToDays v) inv.remoteBucket := by
  rw [show clientOk (inv.args.headD "") = clientOk (inv.args.head?.getD "") from
    congrArg clientOk (List.headD_eq_head? inv.args "")] at h3
  simp [mainReplicateReset, replicateResetSyntaxCheck,
    h1, h2, h3, h4, h5, h6, h7, h8]

/-- Witness for C3 at the spec examples: `--older-than "60d"` reaches the
remote call with a 60-day filter and `--older-than "2w"` with a 14-day
filter. -/
theorem olderThanParsed_truncatedDays_witness :
    mainReplicateReset parseDurationModel (fun _ => true)
        ⟨["myminio/mybucket"], "arn:minio:replication::xxx:mybucket",
          true, "60d"⟩
      = .remoteCall 60 "arn:minio:replication::xxx:mybucket"
    ∧ mainReplicateReset parseDurationModel (fun _ => true)
        ⟨["myminio/mybucket"], "arn:minio:replication::xxx:mybucket",
          true, "2w"⟩
      = .remoteCall 14 "arn:minio:replication::xxx:mybucket" := by
  constructor
  · have h := olderThanParsed_truncatedDays parseDurationModel (fun _ => true)
      ⟨["myminio/mybucket"], "arn:minio:replication::xxx:mybucket",
        true, "60d"⟩ 5184000000000000
      rfl (by decide) rfl rfl (by decide) (by decide) (by decide) (by decide)
    rw [h]; decide
  · have h := olderThanParsed_truncatedDays parseDurationModel (fun _ => true)
      ⟨["myminio/mybucket"], "arn:minio:replication::xxx:mybucket",
        true, "2w"⟩ 1209600000000000
      rfl (by decide) rfl rfl (by decide) (by decide) (by decide) (by decide)
    rw [h]; decide

/-- Claim C4: any invocation whose positional argument count is not
exactly one exits through the usage-error path with exit code 1, and the
remote `ResetReplication` operation is never reached. -/
theorem wrongArgCount_usage (parse : String → Option Int)
    (clientOk : String → Bool) (inv : Invocation)
    (h : inv.args.length ≠ 1) :
    mainReplicateReset parse clientOk inv = .usageExit 1
      ∧ ∀ d rb, mainReplicateReset parse clientOk inv ≠ .remoteCall d rb := by
  simp [mainReplicateReset, replicateResetSyntaxCheck, h]

/-- Witness for C4 at an invocation with zero positional arguments. -/
theorem wrongArgCount_usage_witness :
    mainReplicateReset parseDurationModel (fun _ => true)
        ⟨[], "arn:minio:replication::xxx:mybucket", false, ""⟩ = .usageExit 1
      ∧ ∀ d rb, mainReplicateReset parseDurationModel (fun _ => true)
        ⟨[], "arn:minio:replication::xxx:mybucket", false, ""⟩
          ≠ .remoteCall d rb :=
  wrongArgCount_usage parseDurationModel (fun _ => true)
    ⟨[], "arn:minio:replication::xxx:mybucket", false, ""⟩ (by decide)

/-- Claim C5: when the `--remote-bucket` flag is absent or empty the
remote `ResetReplication` operation is never reached, and (whenever the
argument-count check that runs first passes) the command terminates
fatally with the descriptive error of the source. -/
theorem remoteBucketMissing_fatal (parse : String → Option Int)
    (clientOk : String → Bool) (inv : Invocation)
    (h : inv.remoteBucket = "") :
    (∀ d rb, mainReplicateReset parse clientOk inv ≠ .remoteCall d rb)
      ∧ (inv.args.length = 1 →
        mainReplicateReset parse clientOk inv
          = .fatalExit "--remote-bucket flag needs to be specified.") := by
  by_cases h1 : inv.args.length = 1 <;>
    simp [mainReplicateReset, replicateResetSyntaxCheck, h, h1]

/-- Witness for C5 at a one-argument invocation without
`--remote-bucket`. -/
theorem remoteBucketMissing_fatal_witness :
    (∀ d rb, mainReplicateReset parseDurationModel (fun _ => true)
        ⟨["myminio/mybucket"], "", false, ""⟩ ≠ .remoteCall d rb)
      ∧ mainReplicateReset parseDurationModel (fun _ => true)
        ⟨["myminio/mybucket"], "", false, ""⟩
          = .fatalExit "--remote-bucket flag needs to be specified." := by
  have h := remoteBucketMissing_fatal parseDurationModel (fun _ => true)
    ⟨["myminio/mybucket"], "", false, ""⟩ rfl
  exact ⟨h.1, h.2 rfl⟩

/-- Claim C6: the human-readable line is
`Replication reset started for <URL> with ID <ResetID>` when the result
holds exactly one target, and the generic
`Replication reset started for <URL>` line (without any reset identifier)
for every other number of targets. -/
theorem stringOutput_targets (r : replicateResetMessage) :
    (∀ t, r.Resync.Targets = [t] →
      r.string = some ("Replication reset started for " ++ r.URL
        ++ " with ID " ++ t.ResetID))
    ∧ (r.Resync.Targets.length ≠ 1 →
      r.string = some ("Replication reset started for " ++ r.URL)) := by
  constructor
  · intro t ht
    simp [replicateResetMessage.string, ht]
  · intro hn
    simp [replicateResetMessage.string, hn]

/-- Witness for C6: one target with reset identifier `abc123` puts the
identifier and the source URL on the line; two targets give the generic
line. -/
theorem stringOutput_targets_witness :
    (resultMessage "myminio/mybucket" ⟨[⟨"arn1", "abc123"⟩]⟩).string
      = some "Replication reset started for myminio/mybucket with ID abc123"
    ∧ (resultMessage "myminio/mybucket"
        ⟨[⟨"arn1", "abc123"⟩, ⟨"arn2", "def456"⟩]⟩).string
      = some "Replication reset started for myminio/mybucket" := by
  constructor
  · have h := (stringOutput_targets
      (resultMessage "myminio/mybucket" ⟨[⟨"arn1", "abc123"⟩]⟩)).1
      ⟨"arn1", "abc123"⟩ rfl
    rw [h]; decide
  · have h := (stringOutput_targets
      (resultMessage "myminio/mybucket"
        ⟨[⟨"arn1", "abc123"⟩, ⟨"arn2", "def456"⟩]⟩)).2 (by decide)
    rw [h]; decide

/-- Claim C7: the JSON rendering of the message printed after a
successful remote call is a JSON document whose `status` field is the
string `success` and whose `resyncInfo` field is exactly the JSON
encoding of the structure the remote call returned, unmodified. -/
theorem jsonOutput_status_resyncInfo (aliasedURL : String)
    (rinfo : ResyncTargetsInfo) :
    ((resultMessage aliasedURL rinfo).JSON).getField "status"
        = some (.str "success")
      ∧ ((resultMessage aliasedURL rinfo).JSON).getField "resyncInfo"
        = some rinfo.toJson := by
  constructor <;> rfl

/-- Claim C8: when `--older-than` is not supplied, the remote
`ResetReplication` call is reached with a zero duration and the
`--remote-bucket` value. -/
theorem olderThanAbsent_zeroDuration (parse : String → Option Int)
    (clientOk : String → Bool) (inv : Invocation)
    (h1 : inv.args.length = 1) (h2 : inv.remoteBucket ≠ "")
    (h3 : clientOk (inv.args.headD "") = true)
    (h4 : inv.olderThanSet = false) :
    mainReplicateReset parse clientOk inv
      = .remoteCall 0 inv.remoteBucket := by
  rw [show clientOk (inv.args.headD "") = clientOk (inv.args.head?.getD "") from
    congrArg clientOk (List.headD_eq_head? inv.args "")] at h3
  simp [mainReplicateReset, replicateResetSyntaxCheck, h1, h2, h3, h4]

/-- Witness for C8. -/
theorem olderThanAbsent_zeroDuration_witness :
    mainReplicateReset parseDurationModel (fun _ => true)
        ⟨["myminio/mybucket"], "arn:minio:replication::xxx:mybucket",
          false, ""⟩
      = .remoteCall 0 "arn:minio:replication::xxx:mybucket" :=
  olderThanAbsent_zeroDuration parseDurationModel (fun _ => true)
    ⟨["myminio/mybucket"], "arn:minio:replication::xxx:mybucket",
      false, ""⟩ rfl (by decide) rfl rfl

/-- Claim C9: `--older-than` explicitly set to the empty string behaves
exactly like an absent flag: the run is identical for every duration
parser (so no parsing is attempted and no error raised), and the remote
call is reached with a zero duration. -/
theorem olderThanEmpty_likeUnset (parse otherParse : String → Option Int)
    (clientOk : String → Bool) (inv : Invocation)
    (h4 : inv.olderThanSet = true) (h5 : inv.olderThanStr = "") :
    (mainReplicateReset parse clientOk inv
      = mainReplicateReset otherParse clientOk
          { inv with olderThanSet := false })
    ∧ (inv.args.length = 1 → inv.remoteBucket ≠ "" →
        clientOk (inv.args.headD "") = true →
        mainReplicateReset parse clientOk inv
          = .remoteCall 0 inv.remoteBucket) := by
  constructor
  · simp [mainReplicateReset, replicateResetSyntaxCheck, h5]
  · intro h1 h2 h3
    rw [show clientOk (inv.args.headD "") = clientOk (inv.args.head?.getD "") from
      congrArg clientOk (List.headD_eq_head? inv.args "")] at h3
    simp [mainReplicateReset, replicateResetSyntaxCheck, h1, h2, h3, h5]

/-- Witness for C9: the empty string given to `--older-than` runs exactly
like the unset flag, also under a parser that rejects every string, and
ends in a zero-duration remote call. -/
theorem olderThanEmpty_likeUnset_witness :
    (mainReplicateReset parseDurationModel (fun _ => true)
        ⟨["myminio/mybucket"], "arn:minio:replication::xxx:mybucket",
          true, ""⟩
      = mainReplicateReset (fun _ => none) (fun _ => true)
        ⟨["myminio/mybucket"], "arn:minio:replication::xxx:mybucket",
          false, ""⟩)
    ∧ mainReplicateReset parseDurationModel (fun _ => true)
        ⟨["myminio/mybucket"], "arn:minio:replication::xxx:mybucket",
          true, ""⟩
      = .remoteCall 0 "arn:minio:replication::xxx:mybucket" := by
  have h := olderThanEmpty_likeUnset parseDurationModel (fun _ => none)
    (fun _ => true)
    ⟨["myminio/mybucket"], "arn:minio:replication::xxx:mybucket",
      true, ""⟩ rfl rfl
  exact ⟨h.1, h.2 rfl (by decide) rfl⟩

/-- Claim C10: the human-readable formatter never fails (never indexes
the target list out of bounds): it always produces a line, and for an
empty target list that line is the generic confirmation. -/
theorem stringOutput_total (r : replicateResetMessage) :
    (∃ s, r.string = some s)
      ∧ (r.Resync.Targets = [] →
        r.string = some ("Replication reset started for " ++ r.URL)) := by
  constructor
  · by_cases hl : r.Resync.Targets.length = 1
    · obtain ⟨t, ht⟩ := List.length_eq_one.mp hl
      exact ⟨"Replication reset started for " ++ r.URL ++ " with ID "
          ++ t.ResetID,
        by simp [replicateResetMessage.string, ht]⟩
    · exact ⟨"Replication reset started for " ++ r.URL,
        by simp [replicateResetMessage.string, hl]⟩
  · intro h0
    simp [replicateResetMessage.string, h0]

/-- Witness for C10 at an empty target list. -/
theorem stringOutput_total_witness :
    (∃ s, (resultMessage "myminio/mybucket" ⟨[]⟩).string = some s)
      ∧ (resultMessage "myminio/mybucket" ⟨[]⟩).string
        = some "Replication reset started for myminio/mybucket" := by
  have h := stringOutput_total (resultMessage "myminio/mybucket" ⟨[]⟩)
  exact ⟨h.1, by rw [h.2 rfl]; decide⟩

end McReplicateReset
